import Mathlib

/-!
Verification of the payment capture pipeline of the WPerfumes repository
(`app/payments_paypal.py`, `app/models_payments.py`,
`app/routes_payments_admin.py`) against its natural-language specification.

The Python code is shallowly embedded: monetary `Decimal` values are exact
rationals (`ℚ`), JSON objects are structures whose optional keys are
`Option` fields, the SQLAlchemy session is an explicit `Store` value, and
every outbound HTTP call (token exchange, order fetch, capture, refund,
webhook verification) is a parameter of type `Except`/`Option` supplying the
outcome the provider would have produced.  Branches that only exist to
survive a failed import of the persistence models (`PaymentModel is None`)
are not modelled: the deployed configuration has the models available.
-/

/-! ## Python truthiness helpers

`if x:` on an optional string is true exactly when the value is present and
non-empty; `x or y` falls back to `y` on `None` or the empty string;
`str(None)` is the literal string `"None"`. -/

def truthyS : Option String → Bool
  | none => false
  | some s => !(s == "")

def pyStr : Option String → String
  | none => "None"
  | some s => s

/-- `a or b` for an optional string `a` and a string default `b`. -/
def pyOrS (a : Option String) (b : String) : String :=
  match a with
  | none => b
  | some s => if s = "" then b else s

/-- `a or b` where both sides are optional strings. -/
def pyOrOpt (a b : Option String) : Option String :=
  match a with
  | none => b
  | some s => if s = "" then b else some s

/-- `a or b` for plain strings (empty string is falsy). -/
def strOr (a b : String) : String :=
  if a = "" then b else a

/-- Python `str.upper()` on the ASCII strings this code handles. -/
def pyUpper (s : String) : String := ⟨s.data.map Char.toUpper⟩

/-- Python `str.lower()` on the ASCII strings this code handles. -/
def pyLower (s : String) : String := ⟨s.data.map Char.toLower⟩

/-! ## Fixed-point decimal arithmetic

`Decimal.quantize(Decimal("0.01"), rounding=ROUND_HALF_UP)`: round to two
fraction digits, ties away from zero. -/

/-- Round a rational to 2 fraction digits, half away from zero
(`ROUND_HALF_UP`). -/
def roundHalfUp2 (q : ℚ) : ℚ :=
  if 0 ≤ q then ((⌊q * 100 + 1/2⌋ : ℤ) : ℚ) / 100
  else -(((⌊(-q) * 100 + 1/2⌋ : ℤ) : ℚ) / 100)

/-- `_currency_safe_decimal` (payments_paypal.py:204): parse and quantize to
2 fraction digits half-up.  Parsing `Decimal(str(value))` is exact, so the
embedding is the quantization alone. -/
def _currency_safe_decimal (value : ℚ) : ℚ :=
  roundHalfUp2 value

/-- One element of the `items` array of a create/capture request:
`unit_price` and `quantity` as exact decimals. -/
structure LineItem where
  unit_price : ℚ
  quantity : ℚ
deriving DecidableEq

/-- `_compute_items_total` (payments_paypal.py:209): sum the exact products
`unit_price * quantity` starting from `Decimal("0.00")`, then quantize the
total once, half-up to 2 fraction digits. -/
def _compute_items_total (items : List LineItem) : ℚ :=
  roundHalfUp2 (items.foldl (fun total it => total + it.unit_price * it.quantity) 0)

/-! ## TokenCache (payments_paypal.py:138-183) -/

/-- The module-level `_token_cache` dict: a token (if any) and the stored
expiry instant `expires_at`. -/
structure TokenCacheState where
  token : Option String
  expires_at : ℚ
deriving DecidableEq

/-- The cleared cache (`_token_cache.clear()`); `expires_at` reads as the
dict-get default `0`. -/
def emptyTokenCache : TokenCacheState := ⟨none, 0⟩

/-- `_cache_access_token` (payments_paypal.py:138): store the token with
`expires_at = time.time() + expires_in - 30`. -/
def _cache_access_token (now : ℚ) (token : String) (expires_in : ℤ) : TokenCacheState :=
  ⟨some token, now + (expires_in : ℚ) - 30⟩

/-- `_get_cached_token` (payments_paypal.py:143): return the cached token
unless it is absent/empty or `time.time() >= expires_at`, in which case the
cache is cleared.  Returns the token (if served) and the possibly-cleared
cache. -/
def _get_cached_token (now : ℚ) (c : TokenCacheState) : Option String × TokenCacheState :=
  match c.token with
  | none => (none, c)
  | some t =>
    if t = "" then (none, c)
    else if c.expires_at ≤ now then (none, emptyTokenCache)
    else (some t, c)

/-- Body of the provider's OAuth response: `access_token` and `expires_in`
(defaulting to 300 when absent). -/
structure ExchangeResp where
  access_token : Option String
  expires_in : Option ℤ
deriving DecidableEq

instance {ε α : Type} [DecidableEq ε] [DecidableEq α] : DecidableEq (Except ε α) := fun a b =>
  match a, b with
  | .ok x, .ok y => if h : x = y then isTrue (by rw [h]) else isFalse (by simp [h])
  | .error x, .error y => if h : x = y then isTrue (by rw [h]) else isFalse (by simp [h])
  | .ok _, .error _ => isFalse (by simp)
  | .error _, .ok _ => isFalse (by simp)

/-- Outcome of `get_paypal_access_token`: the token or the raised error
message, the cache afterwards, and whether a client-credentials exchange
(`requests.post` to the OAuth endpoint) was performed. -/
structure TokenOutcome where
  result : Except String String
  cache : TokenCacheState
  fetched : Bool
deriving DecidableEq

/-- `get_paypal_access_token` (payments_paypal.py:153): serve from the cache
when possible; otherwise fail on missing credentials, or perform the
client-credentials exchange (outcome supplied by `exchange`), cache the
fresh token with the 30s margin, and return it. -/
def get_paypal_access_token (now : ℚ) (cache : TokenCacheState)
    (client_id secret : String) (exchange : Except String ExchangeResp) : TokenOutcome :=
  match _get_cached_token now cache with
  | (some t, c) => ⟨.ok t, c, false⟩
  | (none, c) =>
    if client_id = "" ∨ secret = "" then
      ⟨.error "PayPal credentials not configured on server", c, false⟩
    else
      match exchange with
      | .error _ => ⟨.error "Failed to obtain PayPal access token", c, true⟩
      | .ok js =>
        let expires_in := js.expires_in.getD 300
        match js.access_token with
        | none => ⟨.error "Failed to obtain PayPal access token", c, true⟩
        | some tok =>
          if tok = "" then ⟨.error "Failed to obtain PayPal access token", c, true⟩
          else ⟨.ok tok, _cache_access_token now tok expires_in, true⟩

/-! ## Provider JSON shapes

The slices of the provider's order / capture-response JSON that
`capture_paypal_order` reads.  Optional keys are `Option` fields; a JSON
string amount is its exact decimal value (absent/empty strings are `none`).
The `payments` wrapper around `captures` is collapsed: an absent or empty
`payments` dict yields an empty capture list, exactly as the code's
`pu.get("payments", {}) or {}` / `.get("captures", [])` chain does. -/

structure AmountObj where
  value : Option ℚ
  currency_code : Option String
deriving DecidableEq

structure CaptureInfo where
  id : Option String
  status : Option String
  amount : Option AmountObj
deriving DecidableEq

structure PurchaseUnit where
  amount : Option AmountObj
  captures : List CaptureInfo
deriving DecidableEq

structure NameObj where
  given_name : Option String
  surname : Option String
deriving DecidableEq

structure PayerObj where
  email_address : Option String
  email : Option String
  payer_id : Option String
  payerID : Option String
  payerId : Option String
  name : Option NameObj
deriving DecidableEq

structure OrderJson where
  id : Option String
  status : Option String
  purchase_units : List PurchaseUnit
  payer : Option PayerObj
deriving DecidableEq

/-- The payer fields extracted by `capture_paypal_order` (lines 477-494). -/
structure PayerInfo where
  name : Option String
  email : Option String
  payer_id : Option String
deriving DecidableEq

/-- `" ".join(filter(None, [given_name, surname])).strip()`. -/
def joinName (given surname : Option String) : String :=
  (String.intercalate " " (([given, surname].filterMap id).filter (fun s => !(s == "")))).trim

/-! ## PersistenceStore rows (models_payments.py) -/

/-- A row of the `payments` table. -/
structure PaymentRow where
  id : ℕ
  order_id : Option ℕ
  provider : String
  provider_order_id : Option String
  provider_capture_id : Option String
  amount : ℚ
  currency : String
  status : String
  payer_name : Option String
  payer_email : Option String
  payer_id : Option String
  raw_capture : OrderJson
  raw_refunds : Option (List String)
deriving DecidableEq

/-- A row of the `orders` table (the shell created per capture). -/
structure OrderRow where
  id : ℕ
  order_number : String
  total_amount : ℚ
  currency : String
  status : String
deriving DecidableEq

/-- A row of the `paypal_webhook_events` table. -/
structure WebhookRow where
  id : ℕ
  event_id : String
  event_type : Option String
deriving DecidableEq

/-- The database state: the three tables of the payment core plus the next
autoincrement primary keys. -/
structure Store where
  payments : List PaymentRow
  orders : List OrderRow
  webhook_events : List WebhookRow
  next_payment_id : ℕ
  next_order_id : ℕ
  next_event_id : ℕ
deriving DecidableEq

def emptyStore : Store := ⟨[], [], [], 1, 1, 1⟩

/-! ## Schema column declarations (models_payments.py)

SQLAlchemy column options, transcribed from the model classes: whether the
column carries `unique=True`, `index=True`, and whether it is nullable. -/

structure ColumnSpec where
  typeName : String
  unique : Bool
  index : Bool
  nullable : Bool
deriving DecidableEq

/-- `orders.order_number` (models_payments.py:14): `unique=True, index=True,
nullable=False`. -/
def orders_order_number_column : ColumnSpec := ⟨"String(64)", true, true, false⟩

/-- `payments.provider_capture_id` (models_payments.py:46):
`db.Column(db.String(128), index=True)` — indexed, nullable, and carrying no
`unique=True`. -/
def payments_provider_capture_id_column : ColumnSpec := ⟨"String(128)", false, true, true⟩

/-- `paypal_webhook_events.event_id` (models_payments.py:76):
`db.Column(db.String(128), index=True, nullable=False)` — indexed, no
`unique=True`. -/
def paypal_webhook_events_event_id_column : ColumnSpec := ⟨"String(128)", false, true, false⟩

/-! ## Idempotent capture persistence (payments_paypal.py:218-274) -/

/-- The `PaymentsOrder(...)` shell created at payments_paypal.py:239-243.
-/
def persistOrderShell (st : Store) (provider_order_id : String)
    (amount : ℚ) (currency : String) : OrderRow :=
  { id := st.next_order_id
    order_number := "PP-" ++ provider_order_id.take 60
    total_amount := amount
    currency := strOr currency "USD"
    status := "paid" }

/-- The `PaymentModel(...)` record built at payments_paypal.py:249-262
(primary keys assigned by the session flush/commit). -/
def persistPaymentRow (st : Store) (provider_order_id : String)
    (provider_capture_id : Option String) (capture_resp : OrderJson)
    (amount : ℚ) (currency : String) (payer_info : PayerInfo) : PaymentRow :=
  { id := st.next_payment_id
    order_id := some st.next_order_id
    provider := "paypal"
    provider_order_id := some provider_order_id
    provider_capture_id :=
      if truthyS provider_capture_id then some (pyStr provider_capture_id) else none
    amount := amount
    currency := strOr currency "USD"
    status := pyLower (pyOrS capture_resp.status "completed")
    payer_name := payer_info.name
    payer_email := payer_info.email
    payer_id := payer_info.payer_id
    raw_capture := capture_resp
    raw_refunds := none }

/-- `_persist_capture_idempotent` (payments_paypal.py:218): when the capture
id is truthy, query for an existing payment with that capture id and return
it unchanged; otherwise create the order shell and the payment row in one
unit.  `unitFails` is the oracle for that unit raising (e.g. a database
error during the inserts or commit): the session is rolled back and `None`
is returned. -/
def _persist_capture_idempotent (st : Store) (provider_order_id : String)
    (provider_capture_id : Option String) (capture_resp : OrderJson)
    (amount : ℚ) (currency : String) (payer_info : PayerInfo)
    (unitFails : Bool) : Option ℕ × Store :=
  let doInsert : Option ℕ × Store :=
    if unitFails then (none, st)
    else
      let pay_order := persistOrderShell st provider_order_id amount currency
      let payment := persistPaymentRow st provider_order_id provider_capture_id
        capture_resp amount currency payer_info
      (some payment.id,
        { st with
            payments := st.payments ++ [payment]
            orders := st.orders ++ [pay_order]
            next_payment_id := st.next_payment_id + 1
            next_order_id := st.next_order_id + 1 })
  if truthyS provider_capture_id then
    match st.payments.find? (fun p => p.provider_capture_id == some (pyStr provider_capture_id)) with
    | some existing => (some existing.id, st)
    | none => doInsert
  else doInsert

/-! ## Capture endpoint (payments_paypal.py:356-500) -/

/-- The JSON bodies `capture_paypal_order` can answer with. -/
inductive CapResult where
  | missing_order_id
  | auth_failed
  | order_fetch_failed (detail : String)
  | invalid_order
  | amount_mismatch (client_total paypal_total : ℚ)
  | already_captured (order_id : String) (capture_id : Option String) (payment_id : ℕ)
  | capture_failed (detail : String)
  | captured (order_id : String) (capture_id : Option String) (payment_id : Option ℕ)
deriving DecidableEq

/-- Result of a capture request: the response body, the store afterwards,
and whether the provider's capture operation (`POST
/v2/checkout/orders/{id}/capture`) was invoked. -/
structure CapOutcome where
  result : CapResult
  store : Store
  captureInvoked : Bool
deriving DecidableEq

/-- The empty JSON amount object `{}` (used for `pu0.get("amount") or {}`). -/
def emptyAmountObj : AmountObj := ⟨none, none⟩

/-- The empty payer object `{}` (used for `capture_resp.get("payer", {}) or {}`). -/
def emptyPayerObj : PayerObj := ⟨none, none, none, none, none, none⟩

/-- `capture_paypal_order` (payments_paypal.py:356): validate the order id,
obtain a token (`token = none` models the token helper raising), fetch the
order (`fetch`), require a purchase unit, reconcile optional client items
against the provider amount, run the idempotency pre-check over the order's
completed captures, invoke the provider capture (`captureCall`), parse the
response, and persist idempotently (`unitFails` feeds the persistence
oracle). -/
def capture_paypal_order (st : Store) (order_id : Option String) (items : List LineItem)
    (token : Option String) (fetch : Except String OrderJson)
    (captureCall : Except String OrderJson) (unitFails : Bool) : CapOutcome :=
  if !(truthyS order_id) then ⟨.missing_order_id, st, false⟩
  else
    let oid := pyStr order_id
    match token with
    | none => ⟨.auth_failed, st, false⟩
    | some _ =>
      match fetch with
      | .error e => ⟨.order_fetch_failed e, st, false⟩
      | .ok order =>
        match order.purchase_units with
        | [] => ⟨.invalid_order, st, false⟩
        | pu0 :: _ =>
          let amount_obj := pu0.amount.getD emptyAmountObj
          let paypal_currency := pyUpper (pyOrS amount_obj.currency_code "USD")
          let paypal_value := _currency_safe_decimal (amount_obj.value.getD 0)
          if items ≠ [] ∧ _compute_items_total items ≠ paypal_value then
            ⟨.amount_mismatch (_compute_items_total items) paypal_value, st, false⟩
          else
            let doCapture : CapOutcome :=
              match captureCall with
              | .error e => ⟨.capture_failed e, st, true⟩
              | .ok capture_resp =>
                let pu0_after := capture_resp.purchase_units.headD pu0
                let capture_info := pu0_after.captures.head?
                let provider_order_id := pyOrS capture_resp.id oid
                let provider_capture_id := capture_info.bind (fun ci => ci.id)
                let amt_obj :=
                  match capture_info with
                  | some ci =>
                    match ci.amount with
                    | some a => if a = emptyAmountObj then amount_obj else a
                    | none => amount_obj
                  | none => amount_obj
                let currency_code :=
                  pyUpper (if amt_obj = emptyAmountObj then paypal_currency
                   else pyOrS amt_obj.currency_code paypal_currency)
                let amount_decimal := _currency_safe_decimal (amt_obj.value.getD paypal_value)
                let payer := capture_resp.payer.getD emptyPayerObj
                let payer_email := pyOrOpt payer.email_address payer.email
                let payer_pid := pyOrOpt (pyOrOpt payer.payer_id payer.payerID) payer.payerId
                let name_obj := payer.name.getD ⟨none, none⟩
                let payer_name := some (joinName name_obj.given_name name_obj.surname)
                let pinfo : PayerInfo := ⟨payer_name, payer_email, payer_pid⟩
                let res := _persist_capture_idempotent st provider_order_id provider_capture_id
                  capture_resp amount_decimal currency_code pinfo unitFails
                ⟨.captured oid provider_capture_id res.1, res.2, true⟩
            match pu0.captures.find? (fun c => pyUpper (c.status.getD "") == "COMPLETED") with
            | some c =>
              match st.payments.find? (fun p => p.provider_capture_id == some (pyStr c.id)) with
              | some existing => ⟨.already_captured oid c.id existing.id, st, false⟩
              | none => doCapture
            | none => doCapture

/-! ## Webhook endpoint (payments_paypal.py:607-656) -/

/-- The relevant keys of an inbound webhook event body. -/
structure WebhookBody where
  id : Option String
  event_type : Option String
deriving DecidableEq

inductive WebhookResult where
  | verification_failed
  | webhook_verification_error (detail : String)
  | accepted
deriving DecidableEq

/-- `paypal_webhook` (payments_paypal.py:607): when a webhook id is
configured, verify the signature (`verifyStep` supplies the provider's
`verification_status`, or the token/verify call raising); on non-SUCCESS
reject without touching the store.  Then persist the event unconditionally
(an insert failure, `persistFails`, is rolled back and swallowed — the
handler still answers `accepted`). -/
def paypal_webhook (st : Store) (webhook_id : String) (event_body : WebhookBody)
    (verifyStep : Except String String) (persistFails : Bool) : WebhookResult × Store :=
  let persistPart : WebhookResult × Store :=
    if persistFails then (.accepted, st)
    else
      let ev : WebhookRow := ⟨st.next_event_id, pyOrS event_body.id "", event_body.event_type⟩
      (.accepted,
        { st with
            webhook_events := st.webhook_events ++ [ev]
            next_event_id := st.next_event_id + 1 })
  if webhook_id ≠ "" then
    match verifyStep with
    | .error e => (.webhook_verification_error e, st)
    | .ok vstatus =>
      if vstatus ≠ "SUCCESS" then (.verification_failed, st)
      else persistPart
  else persistPart

/-! ## Refund endpoint (routes_payments_admin.py:281-361) -/

inductive RefundResult where
  | not_found
  | unsupported_provider
  | no_capture_id
  | paypal_refund_failed (detail : String)
  | refund_initiated (refund_response : String)
deriving DecidableEq

/-- `api_payment_refund` (routes_payments_admin.py:281): load the payment by
primary key, require provider `"paypal"` and a truthy capture id, call the
provider refund endpoint (`refundCall` supplies its outcome; the request
payload built from the optional amount/currency/note is opaque to it).  On
success append the refund response to the `_refunds` list inside
`raw_response` and set status to `refunded`; a commit failure
(`persistFails`) rolls back but the refund is still reported; on a provider
error the store is untouched. -/
def api_payment_refund (st : Store) (payment_id : ℕ)
    (refundCall : Except String String) (persistFails : Bool) : RefundResult × Store :=
  match st.payments.find? (fun p => p.id == payment_id) with
  | none => (.not_found, st)
  | some p =>
    if p.provider ≠ "paypal" then (.unsupported_provider, st)
    else if !(truthyS p.provider_capture_id) then (.no_capture_id, st)
    else
      match refundCall with
      | .error e => (.paypal_refund_failed e, st)
      | .ok js =>
        if persistFails then (.refund_initiated js, st)
        else
          let p2 : PaymentRow :=
            { p with
                raw_refunds := some ((p.raw_refunds.getD []) ++ [js])
                status := "refunded" }
          (.refund_initiated js,
            { st with payments := st.payments.map (fun q => if q.id == p.id then p2 else q) })

/-! ## Theorems -/

theorem foldl_items_total (l : List LineItem) (a : ℚ) :
    l.foldl (fun total it => total + it.unit_price * it.quantity) a
      = a + (l.map (fun it => it.unit_price * it.quantity)).sum := by
  induction l generalizing a with
  | nil => simp
  | cons x xs ih => simp [ih, add_assoc]

/-- C5: `_compute_items_total` returns the sum of `unit_price × quantity`
over the items, computed exactly and rounded half-up to 2 fraction digits
once, after summing; in particular one item at unit price 10.005 with
quantity 2 totals 20.01 (not the per-line-rounded 20.02). -/
theorem compute_items_total_rounds_once :
    (∀ items : List LineItem,
      _compute_items_total items
        = roundHalfUp2 ((items.map (fun it => it.unit_price * it.quantity)).sum))
    ∧ _compute_items_total [⟨10.005, 2⟩] = 20.01 := by
  constructor
  · intro items
    simp [_compute_items_total, foldl_items_total]
  · norm_num [_compute_items_total, roundHalfUp2]

/-- C8: a token cached at time `t` with `expires_in = 300` is served from the
cache, unchanged, for every request with `now < t + 270` (the 30s margin),
and any request at or after `t + 270` performs a fresh client-credentials
exchange. -/
theorem token_refresh_boundary (t now : ℚ) (tok client_id secret : String)
    (exchange : Except String ExchangeResp)
    (htok : tok ≠ "") (hcid : client_id ≠ "") (hsec : secret ≠ "") :
    (now < t + 270 →
      get_paypal_access_token now (_cache_access_token t tok 300) client_id secret exchange
        = ⟨.ok tok, _cache_access_token t tok 300, false⟩)
    ∧ (t + 270 ≤ now →
      (get_paypal_access_token now (_cache_access_token t tok 300) client_id secret exchange).fetched
        = true) := by
  constructor
  · intro h
    have hlt : ¬ (t + ((300 : ℤ) : ℚ) - 30 ≤ now) := by push_cast; linarith
    have hcache : _get_cached_token now (_cache_access_token t tok 300)
        = (some tok, _cache_access_token t tok 300) := by
      simp only [_get_cached_token, _cache_access_token]
      rw [if_neg htok, if_neg hlt]
    simp [get_paypal_access_token, hcache]
  · intro h
    have hle : t + ((300 : ℤ) : ℚ) - 30 ≤ now := by push_cast; linarith
    have hcache : _get_cached_token now (_cache_access_token t tok 300)
        = (none, emptyTokenCache) := by
      simp only [_get_cached_token, _cache_access_token]
      rw [if_neg htok, if_pos hle]
    simp only [get_paypal_access_token, hcache]
    rw [if_neg (by simp [hcid, hsec] : ¬(client_id = "" ∨ secret = ""))]
    rcases exchange with e | js
    · rfl
    · rcases hja : js.access_token with _ | tok2
      · simp [hja]
      · by_cases h2 : tok2 = "" <;> simp [hja, h2]

theorem token_refresh_boundary_witness :
    get_paypal_access_token 269 (_cache_access_token 0 "tokA" 300) "cid" "secret"
        (.ok ⟨some "tokB", some 300⟩)
      = ⟨.ok "tokA", _cache_access_token 0 "tokA" 300, false⟩
    ∧ (get_paypal_access_token 271 (_cache_access_token 0 "tokA" 300) "cid" "secret"
        (.ok ⟨some "tokB", some 300⟩)).fetched = true := by
  exact ⟨(token_refresh_boundary 0 269 "tokA" "cid" "secret" _
            (by decide) (by decide) (by decide)).1 (by norm_num),
         (token_refresh_boundary 0 271 "tokA" "cid" "secret" _
            (by decide) (by decide) (by decide)).2 (by norm_num)⟩

/-- C9: when the fetched provider order has an empty `purchase_units` array,
`capture_paypal_order` answers `invalid_order`, never invokes the provider
capture operation, and leaves the store unchanged. -/
theorem capture_fails_on_empty_purchase_units (st : Store) (oid tk : String)
    (items : List LineItem) (order : OrderJson)
    (captureCall : Except String OrderJson) (unitFails : Bool)
    (hoid : oid ≠ "") (hpu : order.purchase_units = []) :
    capture_paypal_order st (some oid) items (some tk) (.ok order) captureCall unitFails
      = ⟨.invalid_order, st, false⟩ := by
  simp [capture_paypal_order, truthyS, hoid, hpu]

theorem capture_fails_on_empty_purchase_units_witness :
    capture_paypal_order emptyStore (some "ORD1") [] (some "tk")
        (.ok ⟨some "ORD1", some "CREATED", [], none⟩) (.error "unreached") false
      = ⟨.invalid_order, emptyStore, false⟩ :=
  capture_fails_on_empty_purchase_units emptyStore "ORD1" "tk" [] _ _ false
    (by decide) rfl

/-- C7: with a webhook verification id configured, a verification response
whose `verification_status` is not `"SUCCESS"` makes the handler answer
`verification_failed` and leaves the store unchanged — no WebhookEvent row
is created. -/
theorem webhook_rejects_bad_signature (st : Store) (wid vstatus : String)
    (event_body : WebhookBody) (persistFails : Bool)
    (hwid : wid ≠ "") (hv : vstatus ≠ "SUCCESS") :
    paypal_webhook st wid event_body (.ok vstatus) persistFails
      = (.verification_failed, st) := by
  simp [paypal_webhook, hwid, hv]

theorem webhook_rejects_bad_signature_witness :
    paypal_webhook emptyStore "WHID1" ⟨some "EV1", some "PAYMENT.CAPTURE.COMPLETED"⟩
        (.ok "FAILURE") false
      = (.verification_failed, emptyStore) :=
  webhook_rejects_bad_signature emptyStore "WHID1" "FAILURE" _ false
    (by decide) (by decide)

/-- C4: with a non-empty client item list, reconciliation is strict equality
between the client-computed rounded total and the provider's reported
amount: on any discrepancy the request fails with `amount_mismatch` before
the provider capture is invoked and before any Payment row is written, and
on equality the request proceeds exactly as if no client items had been
supplied. -/
theorem reconcile_strict_equality (st : Store) (oid tk : String) (items : List LineItem)
    (order : OrderJson) (captureCall : Except String OrderJson) (unitFails : Bool)
    (pu0 : PurchaseUnit) (rest : List PurchaseUnit)
    (hoid : oid ≠ "") (hitems : items ≠ [])
    (hpu : order.purchase_units = pu0 :: rest) :
    (_compute_items_total items ≠ _currency_safe_decimal ((pu0.amount.getD emptyAmountObj).value.getD 0) →
      capture_paypal_order st (some oid) items (some tk) (.ok order) captureCall unitFails
        = ⟨.amount_mismatch (_compute_items_total items)
            (_currency_safe_decimal ((pu0.amount.getD emptyAmountObj).value.getD 0)), st, false⟩)
    ∧ (_compute_items_total items = _currency_safe_decimal ((pu0.amount.getD emptyAmountObj).value.getD 0) →
      capture_paypal_order st (some oid) items (some tk) (.ok order) captureCall unitFails
        = capture_paypal_order st (some oid) [] (some tk) (.ok order) captureCall unitFails) := by
  constructor
  · intro hne
    simp [capture_paypal_order, truthyS, hoid, hpu, hitems, hne]
  · intro heq
    simp [capture_paypal_order, truthyS, hoid, hpu, hitems, heq]

/-! ### Behaviour of the persistence step -/

theorem persist_returns_existing (st : Store) (poid : String) (pcid : Option String)
    (resp : OrderJson) (amount : ℚ) (currency : String) (pinfo : PayerInfo)
    (unitFails : Bool) (existing : PaymentRow)
    (ht : truthyS pcid = true)
    (hf : st.payments.find? (fun p => p.provider_capture_id == some (pyStr pcid))
            = some existing) :
    _persist_capture_idempotent st poid pcid resp amount currency pinfo unitFails
      = (some existing.id, st) := by
  simp [_persist_capture_idempotent, ht, hf]

theorem persist_inserts (st : Store) (poid : String) (pcid : Option String)
    (resp : OrderJson) (amount : ℚ) (currency : String) (pinfo : PayerInfo)
    (h : truthyS pcid = false ∨
         st.payments.find? (fun p => p.provider_capture_id == some (pyStr pcid)) = none) :
    _persist_capture_idempotent st poid pcid resp amount currency pinfo false
      = (some st.next_payment_id,
         { st with
             payments := st.payments ++ [persistPaymentRow st poid pcid resp amount currency pinfo]
             orders := st.orders ++ [persistOrderShell st poid amount currency]
             next_payment_id := st.next_payment_id + 1
             next_order_id := st.next_order_id + 1 }) := by
  cases ht : truthyS pcid with
  | false => simp [_persist_capture_idempotent, ht, persistPaymentRow]
  | true =>
    rcases h with h | h
    · simp [ht] at h
    · simp [_persist_capture_idempotent, ht, h, persistPaymentRow]

/-- C3 counterexample: with the pre-check finding nothing and the atomic
insert unit failing (as in a unique-constraint race), the persistence
helper answers `none` — the payment is surfaced to the caller as absent,
not re-read. -/
theorem persist_conflict_returns_none :
    (_persist_capture_idempotent emptyStore "ORDER1" (some "CAP1")
        ⟨some "ORDER1", some "COMPLETED", [], none⟩ 20 "USD" ⟨none, none, none⟩ true).1
      = none := by
  rfl

theorem persist_unit_failure_aux (st : Store) (poid : String) (pcid : Option String)
    (resp : OrderJson) (amount : ℚ) (currency : String) (pinfo : PayerInfo)
    (h : truthyS pcid = false ∨
         st.payments.find? (fun p => p.provider_capture_id == some (pyStr pcid)) = none) :
    _persist_capture_idempotent st poid pcid resp amount currency pinfo true = (none, st) := by
  cases ht : truthyS pcid with
  | false => simp [_persist_capture_idempotent, ht]
  | true =>
    rcases h with h | h
    · simp [ht] at h
    · simp [_persist_capture_idempotent, ht, h]

/-- C3 (amended): when the atomic persistence unit (order shell + payment
row) fails, `_persist_capture_idempotent` rolls the session back and
returns `None` with the store unchanged — there is no re-query by capture
id, so the conflict reaches the caller as an absent payment id. -/
theorem persist_failure_rolls_back (st : Store) (poid : String) (pcid : Option String)
    (resp : OrderJson) (amount : ℚ) (currency : String) (pinfo : PayerInfo)
    (h : truthyS pcid = false ∨
         st.payments.find? (fun p => p.provider_capture_id == some (pyStr pcid)) = none) :
    _persist_capture_idempotent st poid pcid resp amount currency pinfo true = (none, st) :=
  persist_unit_failure_aux st poid pcid resp amount currency pinfo h

theorem persist_failure_rolls_back_witness :
    (truthyS (some "CAP1") = false ∨
      emptyStore.payments.find?
        (fun p => p.provider_capture_id == some (pyStr (some "CAP1"))) = none)
    ∧ _persist_capture_idempotent emptyStore "ORDER1" (some "CAP1")
        ⟨some "ORDER1", some "COMPLETED", [], none⟩ 20 "USD" ⟨none, none, none⟩ true
      = (none, emptyStore) :=
  ⟨Or.inr rfl,
   persist_failure_rolls_back emptyStore "ORDER1" (some "CAP1") _ 20 "USD" _ (Or.inr rfl)⟩

/-! ### Uniqueness of capture ids -/

/-- No two Payment rows carry the same non-null `provider_capture_id`. -/
def CaptureIdsUnique (st : Store) : Prop :=
  st.payments.Pairwise (fun p q => ∀ s : String,
    p.provider_capture_id = some s → q.provider_capture_id ≠ some s)

/-- C2 counterexample: the schema does not declare a uniqueness constraint
on `payments.provider_capture_id` — the column carries only `index=True`. -/
theorem capture_id_unique_constraint_missing :
    ¬ payments_provider_capture_id_column.unique = true := by
  decide

/-- C2 (amended): the sequential capture-persistence path preserves the
invariant that no two Payment rows share a non-null `provider_capture_id`
(it queries for an existing row before inserting), but the store does not
enforce it: the `provider_capture_id` column is only indexed, with no
uniqueness constraint. -/
theorem capture_id_uniqueness_preserved (st : Store) (poid : String) (pcid : Option String)
    (resp : OrderJson) (amount : ℚ) (currency : String) (pinfo : PayerInfo) (unitFails : Bool)
    (h : CaptureIdsUnique st) :
    CaptureIdsUnique
      (_persist_capture_idempotent st poid pcid resp amount currency pinfo unitFails).2
    ∧ payments_provider_capture_id_column.unique = false := by
  refine ⟨?_, by decide⟩
  cases ht : truthyS pcid with
  | true =>
    rcases hf : st.payments.find? (fun p => p.provider_capture_id == some (pyStr pcid)) with
      _ | existing
    · cases hu : unitFails with
      | true => rw [persist_unit_failure_aux st poid pcid resp amount currency pinfo (Or.inr hf)]; exact h
      | false =>
        rw [persist_inserts st poid pcid resp amount currency pinfo (Or.inr hf)]
        unfold CaptureIdsUnique at h ⊢
        rw [List.pairwise_append]
        refine ⟨h, by simp, ?_⟩
        intro a ha b hb s has habs
        simp only [List.mem_singleton] at hb
        subst hb
        have hnone := List.find?_eq_none.mp hf a ha
        simp only [persistPaymentRow, ht, if_pos] at habs
        have : s = pyStr pcid := by
          have := habs
          simp at this
          exact this.symm
        subst this
        exact hnone (by simp [has])
    · rw [persist_returns_existing st poid pcid resp amount currency pinfo unitFails existing ht hf]
      exact h
  | false =>
    cases hu : unitFails with
    | true =>
      rw [persist_unit_failure_aux st poid pcid resp amount currency pinfo (Or.inl ht)]
      exact h
    | false =>
      rw [persist_inserts st poid pcid resp amount currency pinfo (Or.inl ht)]
      unfold CaptureIdsUnique at h ⊢
      rw [List.pairwise_append]
      refine ⟨h, by simp, ?_⟩
      intro a ha b hb s has habs
      simp only [List.mem_singleton] at hb
      subst hb
      simp [persistPaymentRow, ht] at habs

theorem capture_id_uniqueness_preserved_witness :
    CaptureIdsUnique emptyStore
    ∧ (CaptureIdsUnique
        (_persist_capture_idempotent emptyStore "ORDER1" (some "CAP1")
          ⟨some "ORDER1", some "COMPLETED", [], none⟩ 20 "USD" ⟨none, none, none⟩ false).2
       ∧ payments_provider_capture_id_column.unique = false) :=
  ⟨List.Pairwise.nil,
   capture_id_uniqueness_preserved emptyStore "ORDER1" (some "CAP1") _ 20 "USD" _ false
     List.Pairwise.nil⟩

/-- C6 counterexample: delivering the same webhook event id twice creates
two `WebhookEvent` rows with that event id — the handler's persistence is
not idempotent by event id. -/
theorem webhook_redelivery_duplicates :
    ((paypal_webhook
        (paypal_webhook emptyStore "" ⟨some "EV1", some "PAYMENT.CAPTURE.COMPLETED"⟩
          (.ok "SUCCESS") false).2
        "" ⟨some "EV1", some "PAYMENT.CAPTURE.COMPLETED"⟩
        (.ok "SUCCESS") false).2.webhook_events.filter
      (fun e => e.event_id == "EV1")).length = 2 := by
  rfl

/-- C6 (amended): webhook persistence is an unconditional append — the
handler adds a fresh `WebhookEvent` row for every delivery, making no
check against existing rows with the same provider event id, and the
`event_id` column carries no uniqueness constraint (index only), so a
re-delivered event id yields an additional row. -/
theorem webhook_persist_appends (st : Store) (event_body : WebhookBody) :
    (paypal_webhook st "" event_body (.ok "SUCCESS") false).2.webhook_events
      = st.webhook_events
          ++ [⟨st.next_event_id, pyOrS event_body.id "", event_body.event_type⟩]
    ∧ paypal_webhook_events_event_id_column.unique = false := by
  exact ⟨by simp [paypal_webhook], by decide⟩

/-- C10: a successful refund of a PayPal payment with a truthy capture id
appends the provider's refund response to the `_refunds` audit list inside
the raw response and sets status to `refunded`, leaving the capture id, the
amount, and every other payment row untouched; a failed refund leaves the
store (and hence the status) unchanged. -/
theorem refund_appends_preserves_capture (st : Store) (pid : ℕ) (p : PaymentRow)
    (js err : String)
    (hfind : st.payments.find? (fun q => q.id == pid) = some p)
    (hprov : p.provider = "paypal")
    (hcap : truthyS p.provider_capture_id = true) :
    (api_payment_refund st pid (.ok js) false
      = (.refund_initiated js,
         { st with payments := st.payments.map (fun q =>
             if q.id == p.id then
               { p with raw_refunds := some ((p.raw_refunds.getD []) ++ [js])
                        status := "refunded" }
             else q) })
     ∧ ({ p with raw_refunds := some ((p.raw_refunds.getD []) ++ [js])
                 status := "refunded" } : PaymentRow).provider_capture_id
         = p.provider_capture_id
     ∧ ({ p with raw_refunds := some ((p.raw_refunds.getD []) ++ [js])
                 status := "refunded" } : PaymentRow).amount = p.amount)
    ∧ api_payment_refund st pid (.error err) false = (.paypal_refund_failed err, st) := by
  refine ⟨⟨?_, rfl, rfl⟩, ?_⟩
  · simp [api_payment_refund, hfind, hprov, hcap]
  · simp [api_payment_refund, hfind, hprov, hcap]

/-- A persisted payment row used to instantiate the refund scenario. -/
def testPayment : PaymentRow :=
  { id := 1
    order_id := some 1
    provider := "paypal"
    provider_order_id := some "ORDER1"
    provider_capture_id := some "CAP1"
    amount := 20
    currency := "USD"
    status := "completed"
    payer_name := none
    payer_email := none
    payer_id := none
    raw_capture := ⟨some "ORDER1", some "COMPLETED", [], none⟩
    raw_refunds := none }

def testStoreOnePayment : Store :=
  { emptyStore with payments := [testPayment], next_payment_id := 2, next_order_id := 2 }

theorem refund_appends_preserves_capture_witness :
    (testStoreOnePayment.payments.find? (fun q => q.id == 1) = some testPayment)
    ∧ ((api_payment_refund testStoreOnePayment 1 (.ok "REFUND1") false
        = (.refund_initiated "REFUND1",
           { testStoreOnePayment with payments := testStoreOnePayment.payments.map (fun q =>
               if q.id == testPayment.id then
                 { testPayment with
                     raw_refunds := some ((testPayment.raw_refunds.getD []) ++ ["REFUND1"])
                     status := "refunded" }
               else q) })
       ∧ ({ testPayment with
              raw_refunds := some ((testPayment.raw_refunds.getD []) ++ ["REFUND1"])
              status := "refunded" } : PaymentRow).provider_capture_id
           = testPayment.provider_capture_id
       ∧ ({ testPayment with
              raw_refunds := some ((testPayment.raw_refunds.getD []) ++ ["REFUND1"])
              status := "refunded" } : PaymentRow).amount = testPayment.amount)
      ∧ api_payment_refund testStoreOnePayment 1 (.error "E") false
          = (.paypal_refund_failed "E", testStoreOnePayment)) :=
  ⟨rfl,
   refund_appends_preserves_capture testStoreOnePayment 1 testPayment "REFUND1" "E"
     rfl rfl rfl⟩

/-- A provider order as fetched before any capture: one purchase unit with
the given amount and no captures yet. -/
def freshOrderJson (v : ℚ) : OrderJson :=
  ⟨some "ORDER1", some "APPROVED", [⟨some ⟨some v, some "USD"⟩, []⟩], none⟩

/-- The provider's capture response — and, equally, the same order as
re-fetched after a successful capture: one purchase unit holding one
completed capture with id `c`. -/
def captureRespJson (c : String) (v : ℚ) : OrderJson :=
  ⟨some "ORDER1", some "COMPLETED",
   [⟨some ⟨some v, some "USD"⟩, [⟨some c, some "COMPLETED", some ⟨some v, some "USD"⟩⟩]⟩],
   none⟩

theorem reconcile_strict_equality_witness :
    capture_paypal_order emptyStore (some "ORD1") [⟨9.99, 3⟩] (some "tk")
        (.ok (freshOrderJson 29.97)) (.error "declined") false
      = capture_paypal_order emptyStore (some "ORD1") [] (some "tk")
        (.ok (freshOrderJson 29.97)) (.error "declined") false
    ∧ capture_paypal_order emptyStore (some "ORD1") [⟨9.99, 3⟩] (some "tk")
        (.ok (freshOrderJson 30)) (.error "declined") false
      = ⟨.amount_mismatch 29.97 30, emptyStore, false⟩ := by
  have hct : _compute_items_total [⟨9.99, 3⟩] = 29.97 := by
    norm_num [_compute_items_total, roundHalfUp2]
  have hv1 : _currency_safe_decimal
      (((⟨some ⟨some (29.97 : ℚ), some "USD"⟩, []⟩ : PurchaseUnit).amount.getD
        emptyAmountObj).value.getD 0) = 29.97 := by
    norm_num [_currency_safe_decimal, roundHalfUp2, emptyAmountObj]
  have hv2 : _currency_safe_decimal
      (((⟨some ⟨some (30 : ℚ), some "USD"⟩, []⟩ : PurchaseUnit).amount.getD
        emptyAmountObj).value.getD 0) = 30 := by
    norm_num [_currency_safe_decimal, roundHalfUp2, emptyAmountObj]
  constructor
  · exact (reconcile_strict_equality emptyStore "ORD1" "tk" [⟨9.99, 3⟩]
      (freshOrderJson 29.97) (.error "declined") false
      ⟨some ⟨some 29.97, some "USD"⟩, []⟩ [] (by decide) (by decide) rfl).2
      (by rw [hct, hv1])
  · have h := (reconcile_strict_equality emptyStore "ORD1" "tk" [⟨9.99, 3⟩]
      (freshOrderJson 30) (.error "declined") false
      ⟨some ⟨some 30, some "USD"⟩, []⟩ [] (by decide) (by decide) rfl).1
      (by rw [hct, hv2]; norm_num)
    rw [h, hct, hv2]

/-- C1: starting from a store with no payment for capture id `c`, a first
`capture_paypal_order` call captures and persists one payment; a second
call for the same order (which the provider now reports as completed with
capture id `c`) is answered from the idempotency pre-check with the same
payment id, invokes no provider capture, changes nothing, and exactly one
Payment row with that `provider_capture_id` exists. -/
theorem idempotent_capture (st : Store) (c : String) (v : ℚ)
    (hc : c ≠ "") (hnone : ∀ p ∈ st.payments, p.provider_capture_id ≠ some c) :
    (capture_paypal_order st (some "ORDER1") [] (some "tk")
        (.ok (freshOrderJson v)) (.ok (captureRespJson c v)) false).result
      = .captured "ORDER1" (some c) (some st.next_payment_id)
    ∧ capture_paypal_order
        (capture_paypal_order st (some "ORDER1") [] (some "tk")
          (.ok (freshOrderJson v)) (.ok (captureRespJson c v)) false).store
        (some "ORDER1") [] (some "tk")
        (.ok (captureRespJson c v)) (.ok (captureRespJson c v)) false
      = ⟨.already_captured "ORDER1" (some c) st.next_payment_id,
         (capture_paypal_order st (some "ORDER1") [] (some "tk")
           (.ok (freshOrderJson v)) (.ok (captureRespJson c v)) false).store,
         false⟩
    ∧ ((capture_paypal_order st (some "ORDER1") [] (some "tk")
          (.ok (freshOrderJson v)) (.ok (captureRespJson c v)) false).store.payments.filter
        (fun p => p.provider_capture_id == some c)).length = 1 := by
  have hup : pyUpper "COMPLETED" = "COMPLETED" := rfl
  have husd : pyUpper "USD" = "USD" := rfl
  have hfind0 : st.payments.find? (fun p => p.provider_capture_id == some c) = none := by
    rw [List.find?_eq_none]
    intro p hp
    simpa using hnone p hp
  have hfilter0 : st.payments.filter (fun p => p.provider_capture_id == some c) = [] := by
    rw [List.filter_eq_nil_iff]
    intro p hp
    simpa using hnone p hp
  refine ⟨?_, ?_, ?_⟩
  · simp [capture_paypal_order, _persist_capture_idempotent, persistPaymentRow,
      freshOrderJson, captureRespJson, truthyS, pyStr, pyOrS, emptyAmountObj,
      hc, hfind0, hup, husd]
  · simp [capture_paypal_order, _persist_capture_idempotent, persistPaymentRow, persistOrderShell,
      freshOrderJson, captureRespJson, truthyS, pyStr, pyOrS, emptyAmountObj,
      hc, hfind0, hup, husd, List.find?_append]
  · simp [capture_paypal_order, _persist_capture_idempotent, persistPaymentRow, persistOrderShell,
      freshOrderJson, captureRespJson, truthyS, pyStr, pyOrS, emptyAmountObj,
      hc, hfind0, hup, husd, List.filter_append, hfilter0]

theorem idempotent_capture_witness :
    (∀ p ∈ emptyStore.payments, p.provider_capture_id ≠ some "CAP1")
    ∧ ((capture_paypal_order emptyStore (some "ORDER1") [] (some "tk")
          (.ok (freshOrderJson 20)) (.ok (captureRespJson "CAP1" 20)) false).result
        = .captured "ORDER1" (some "CAP1") (some emptyStore.next_payment_id)
      ∧ capture_paypal_order
          (capture_paypal_order emptyStore (some "ORDER1") [] (some "tk")
            (.ok (freshOrderJson 20)) (.ok (captureRespJson "CAP1" 20)) false).store
          (some "ORDER1") [] (some "tk")
          (.ok (captureRespJson "CAP1" 20)) (.ok (captureRespJson "CAP1" 20)) false
        = ⟨.already_captured "ORDER1" (some "CAP1") emptyStore.next_payment_id,
           (capture_paypal_order emptyStore (some "ORDER1") [] (some "tk")
             (.ok (freshOrderJson 20)) (.ok (captureRespJson "CAP1" 20)) false).store,
           false⟩
      ∧ ((capture_paypal_order emptyStore (some "ORDER1") [] (some "tk")
            (.ok (freshOrderJson 20)) (.ok (captureRespJson "CAP1" 20)) false).store.payments.filter
          (fun p => p.provider_capture_id == some "CAP1")).length = 1) :=
  ⟨by simp [emptyStore],
   idempotent_capture emptyStore "CAP1" 20 (by decide) (by simp [emptyStore])⟩
